import Mathlib

/-!
Verification of the trading-engine core of the `polymarket` bot repository.

The definitions below are a shallow embedding of the Python source:

* `src/core/db.py`            — SQLite store (`Database`): rows become Lean
  structures, SQL `UPDATE ... WHERE` statements become guarded `List.map`s.
* `src/core/rate_limiter.py`  — `RateLimiter` backoff/hysteresis counters.
* `src/execution/risk_manager.py`   — `RiskManager.approve_signal` and the
  kill switch.
* `src/execution/order_manager.py`  — `OrderManager._execute_signal`
  (success recording path and the exit-retry loop), modelled as a pure
  function that also returns a trace of the effects it performs.
* `src/execution/position_manager.py` — `PositionManager.on_price_update`
  for a single position, `_close_position`, `_partial_close`.
* `src/strategies/copy_trader.py`   — `CopyTrader._detect_whale_exits`.

Python `float` values are modelled as `ℚ` (the numbers involved in the
claims are exact decimals), timestamps as `ℚ`, and database tables as
lists of rows.
-/

namespace Polymarket

/-- Position status column: `'open' | 'closing' | 'closed'`
(`open` is a Lean keyword, hence `open_`). -/
inductive PosStatus
  | open_
  | closing
  | closed
  deriving DecidableEq, Repr

/-- Position metadata: the engine only ever reads the `source_wallet`
(`copy_trader._detect_whale_exits`) and `yes_token_id`
(`position_manager.check_market_resolution`) keys of a stored position's
metadata blob, so the blob is modelled by those two optional fields. -/
structure PositionMeta where
  source_wallet : Option String := none
  yes_token_id : Option String := none
  deriving DecidableEq, Repr

/-- One row of the `positions` table (`db.py`, `_create_tables`). -/
structure Position where
  id : Nat
  market_id : String
  token_id : String
  strategy : String
  side : String
  entry_price : ℚ
  size : ℚ
  current_price : Option ℚ := none
  unrealized_pnl : ℚ := 0
  realized_pnl : ℚ := 0
  status : PosStatus := .open_
  stop_loss_price : Option ℚ := none
  take_profit_triggered : Nat := 0
  trailing_stop_price : Option ℚ := none
  opened_at : ℚ := 0
  closed_at : Option ℚ := none
  close_reason : Option String := none
  metadata : PositionMeta := {}
  deriving DecidableEq, Repr

namespace Database

/-- `Database.set_position_closing`: SQL
`UPDATE positions SET status='closing', close_reason=? WHERE id=? AND status='open'`
applied to a single row. -/
def setPositionClosingRow (close_reason : String) (p : Position) : Position :=
  if p.status = .open_ then
    { p with status := .closing, close_reason := some close_reason }
  else p

/-- `Database.set_position_closing` on the whole table. -/
def set_position_closing (tbl : List Position) (position_id : Nat)
    (close_reason : String) : List Position :=
  tbl.map fun p =>
    if p.id = position_id then setPositionClosingRow close_reason p else p

/-- `Database.close_position`: SQL
`UPDATE positions SET status='closed', realized_pnl=?, close_reason=?, closed_at=?
 WHERE id=? AND status IN ('open','closing')` applied to a single row. -/
def closePositionRow (realized_pnl : ℚ) (close_reason : String) (now : ℚ)
    (p : Position) : Position :=
  if p.status = .open_ ∨ p.status = .closing then
    { p with status := .closed, realized_pnl := realized_pnl,
             close_reason := some close_reason, closed_at := some now }
  else p

/-- `Database.close_position` on the whole table. -/
def close_position (tbl : List Position) (position_id : Nat)
    (realized_pnl : ℚ) (close_reason : String) (now : ℚ) : List Position :=
  tbl.map fun p =>
    if p.id = position_id then closePositionRow realized_pnl close_reason now p
    else p

end Database

/-- One row of the `trades` table (`db.py`, `_create_tables`).  The
`order_id` column carries SQL `UNIQUE`; `status` is set to `'submitted'`
by `record_trade`. -/
structure Trade where
  id : Nat
  order_id : String
  strategy : String
  market_id : String
  token_id : String
  side : String
  price : ℚ
  size : ℚ
  order_type : String := "GTC"
  status : String := "submitted"
  reasoning : String := ""
  created_at : ℚ
  updated_at : ℚ
  deriving DecidableEq, Repr

/-- The `trades` table together with the `AUTOINCREMENT` counter. -/
structure TradesTable where
  rows : List Trade := []
  next_id : Nat := 1
  deriving Repr

/-- One row of the `bot_metadata` key/value table. -/
structure MetaRow where
  key : String
  value : String
  updated_at : ℚ
  deriving DecidableEq, Repr

namespace Database

/-- `Database.record_trade`: `INSERT OR IGNORE` keyed on the UNIQUE
`order_id` column (H-18 fix).  When the insert is ignored
(`cursor.rowcount == 0`) the existing row's id is looked up and returned
(`-1` is unreachable here because the ignore only fires when the row
exists, which the `Int` return type keeps representable). -/
def record_trade (tbl : TradesTable) (order_id strategy market_id token_id
    side : String) (price size : ℚ) (order_type : String) (reasoning : String)
    (now : ℚ) : Int × TradesTable :=
  match tbl.rows.find? (fun t => t.order_id = order_id) with
  | some existing => (existing.id, tbl)
  | none =>
      let row : Trade :=
        { id := tbl.next_id, order_id := order_id, strategy := strategy,
          market_id := market_id, token_id := token_id, side := side,
          price := price, size := size, order_type := order_type,
          status := "submitted", reasoning := reasoning,
          created_at := now, updated_at := now }
      (tbl.next_id, { rows := tbl.rows ++ [row], next_id := tbl.next_id + 1 })

/-- `Database.open_position`: `INSERT INTO positions ... VALUES (..., 'open', ...)`
with `current_price` initialized to `entry_price` and the
`take_profit_triggered` column left at its SQL default `0`.  Returns the
row and the new table (the row id is the caller-supplied fresh id,
standing for `cursor.lastrowid`). -/
def open_position (tbl : List Position) (fresh_id : Nat)
    (market_id token_id strategy side : String) (entry_price size : ℚ)
    (stop_loss_price : Option ℚ) (meta : PositionMeta) (now : ℚ) :
    Position × List Position :=
  let row : Position :=
    { id := fresh_id, market_id := market_id, token_id := token_id,
      strategy := strategy, side := side, entry_price := entry_price,
      size := size, current_price := some entry_price, status := .open_,
      stop_loss_price := stop_loss_price, opened_at := now, metadata := meta }
  (row, tbl ++ [row])

/-- `Database.set_metadata`: upsert into `bot_metadata`
(`INSERT ... ON CONFLICT(key) DO UPDATE`). -/
def set_metadata (tbl : List MetaRow) (key value : String) (now : ℚ) :
    List MetaRow :=
  if tbl.any (fun r => r.key = key) then
    tbl.map fun r =>
      if r.key = key then { r with value := value, updated_at := now } else r
  else
    tbl ++ [{ key := key, value := value, updated_at := now }]

/-- `Database.get_metadata`: value for a key, or `none`. -/
def get_metadata (tbl : List MetaRow) (key : String) : Option String :=
  (tbl.find? (fun r => r.key = key)).map (·.value)

/-- `Database.get_open_positions` (no strategy filter):
`SELECT * FROM positions WHERE status IN ('open','closing')`.
The `ORDER BY opened_at DESC` clause is not modelled; every theorem
below is insensitive to row order. -/
def get_open_positions (tbl : List Position) : List Position :=
  tbl.filter fun p => p.status = .open_ ∨ p.status = .closing

/-- `Database.get_open_positions(strategy=s)`. -/
def get_open_positions_of (tbl : List Position) (strategy : String) :
    List Position :=
  (get_open_positions tbl).filter fun p => p.strategy = strategy

/-- `Database.count_open_positions`. -/
def count_open_positions (tbl : List Position) : Nat :=
  (get_open_positions tbl).length

end Database

/-! ## Rate limiter (`src/core/rate_limiter.py`) -/

/-- The backoff/hysteresis state of `RateLimiter`
(the timestamp deque is irrelevant to the claims and omitted). -/
structure RateLimiter where
  backoff_until : ℚ := 0
  consecutive_rate_limits : Nat := 0
  consecutive_successes : Nat := 0
  deriving DecidableEq, Repr

namespace RateLimiter

/-- `RateLimiter.record_rate_limit`: bump the failure counter, zero the
success streak, and set `backoff_until := now + min(2^F, 60)`. -/
def record_rate_limit (now : ℚ) (s : RateLimiter) : RateLimiter :=
  let f := s.consecutive_rate_limits + 1
  { s with
    consecutive_rate_limits := f
    consecutive_successes := 0
    backoff_until := now + min ((2 : ℚ) ^ f) 60 }

/-- `RateLimiter.record_success` (H-17 hysteresis): the failure counter
resets only once 3 consecutive successes have accumulated. -/
def record_success (s : RateLimiter) : RateLimiter :=
  let succ := s.consecutive_successes + 1
  if succ ≥ 3 then
    { s with consecutive_rate_limits := 0, consecutive_successes := 0 }
  else
    { s with consecutive_successes := succ }

end RateLimiter

/-! ## Signals (`src/execution/order_manager.py`) -/

/-- The metadata dict of a `Signal`, modelled as a record of the keys the
engine reads (`is_exit`, `position_id`, `realized_pnl`, `edge_pct`,
`_retry_count`, `stop_loss_price`, `source_wallet`, `arb_leg`).  A missing
key is the field's default (`_retry_count` missing reads as `0`,
`is_exit` missing reads as `False`). -/
structure SignalMeta where
  is_exit : Bool := false
  position_id : Option Nat := none
  realized_pnl : Option ℚ := none
  edge_pct : Option ℚ := none
  retry_count : Nat := 0
  stop_loss_price : Option ℚ := none
  source_wallet : Option String := none
  arb_leg : Option Nat := none
  yes_token_id : Option String := none
  source_wallet_name : Option String := none
  exit_type : Option String := none
  whale_reduction_pct : Option ℚ := none
  matching_position_id : Option Nat := none
  deriving DecidableEq, Repr

/-- The `Signal` dataclass.  `size` is always a quote-currency (USD)
notional (C-06 convention in the source). -/
structure Signal where
  strategy : String
  market_id : String
  token_id : String
  side : String
  price : ℚ
  size : ℚ
  order_type : String := "GTC"
  urgency : String := "normal"
  reasoning : String := ""
  metadata : SignalMeta := {}
  deriving DecidableEq, Repr

/-! ## Risk manager (`src/execution/risk_manager.py`) -/

/-- Stand-in for Python float string formatting (`:.1f`, `:.0f`, `str()`)
inside rejection messages.  No theorem in this file depends on a message
built with it. -/
def fmtQ (q : ℚ) : String := toString q

/-- The slice of `StrategyConfig` the risk manager reads. -/
structure StrategyConfig where
  daily_loss_limit_pct : ℚ := 10
  max_open_positions : Nat := 10
  max_position_pct : ℚ := 15
  min_position_size_usd : ℚ := 25
  min_cash_reserve_pct : ℚ := 10
  min_edge_pct : ℚ := 5
  /-- `get_strategy_allocation(name)` (0 when the strategy is unknown). -/
  allocation : String → ℚ := fun _ => 0

/-- The stores the risk manager consults: the wallet read outcome
(`wallet.get_usdc_balance()` either returns a balance or raises — the
raised message is carried as a `String`), the positions table, and the
start of the current UTC day (for `get_today_realized_pnl`). -/
structure RiskEnv where
  wallet_usdc : Except String ℚ
  positions : List Position
  todayStart : ℚ := 0

/-- The risk manager's in-memory halt flags. -/
structure RiskFlags where
  kill_switch_active : Bool := false
  trading_halted : Bool := false
  daily_loss_halt : Bool := false
  deriving DecidableEq, Repr

namespace RiskManager

/-- `RiskManager._get_portfolio_value` (H-13): the wallet read result is
used when it succeeds and replaced by `0.0` when it raises; the value of
all open/closing positions is added.  (`current_price` is populated by
`open_position` on every row, so the dict-fallback to `entry_price` is
modelled by `Option.getD`.) -/
def get_portfolio_value (env : RiskEnv) : ℚ :=
  let usdc := match env.wallet_usdc with
    | .ok b => b
    | .error _ => 0
  let position_value :=
    ((Database.get_open_positions env.positions).map
      (fun p => (p.current_price.getD p.entry_price) * p.size)).sum
  usdc + position_value

/-- `Database.get_today_realized_pnl`: sum of `realized_pnl` over
positions with `status = 'closed'` and `closed_at ≥` today's start
(an SQL `NULL` `closed_at` never satisfies the comparison). -/
def get_today_realized_pnl (tbl : List Position) (todayStart : ℚ) : ℚ :=
  ((tbl.filter fun p =>
      decide (p.status = .closed) &&
        match p.closed_at with
        | some t => decide (t ≥ todayStart)
        | none => false).map (·.realized_pnl)).sum

/-- `RiskManager._get_total_unrealized_pnl` (C-11). -/
def get_total_unrealized_pnl (tbl : List Position) : ℚ :=
  ((Database.get_open_positions tbl).map (·.unrealized_pnl)).sum

/-- `RiskManager._get_strategy_exposure`. -/
def get_strategy_exposure (tbl : List Position) (strategy : String) : ℚ :=
  ((Database.get_open_positions_of tbl strategy).map
    (fun p => p.entry_price * p.size)).sum

/-- `RiskManager.approve_signal`: the twelve checks, in source order,
first failure short-circuiting.  Returns `((approved, reason), flags')`;
the only flag mutation is setting `daily_loss_halt` in check 5. -/
def approve_signal (cfg : StrategyConfig) (env : RiskEnv)
    (flags : RiskFlags) (s : Signal) : (Bool × String) × RiskFlags :=
  -- 1. kill switch
  if flags.kill_switch_active then ((false, "Kill switch active"), flags)
  -- 2. trading halted
  else if flags.trading_halted then ((false, "Trading halted"), flags)
  -- 3. daily-loss halt already latched
  else if flags.daily_loss_halt then
    ((false, "Daily loss limit reached"), flags)
  else
    -- 4. H-13 portfolio value
    let portfolio_value := get_portfolio_value env
    if portfolio_value ≤ 0 then
      ((false, "Portfolio value is 0 or unknown — cannot assess risk"), flags)
    else
      -- 5. C-11 daily loss limit (realized + unrealized)
      let daily_realized_pnl := get_today_realized_pnl env.positions env.todayStart
      let total_unrealized_pnl := get_total_unrealized_pnl env.positions
      let daily_total_pnl := daily_realized_pnl + total_unrealized_pnl
      let daily_loss_pct := |daily_total_pnl| / portfolio_value * 100
      if daily_total_pnl < 0 ∧ daily_loss_pct ≥ cfg.daily_loss_limit_pct then
        ((false,
          "Daily loss limit: " ++ fmtQ daily_loss_pct ++ "% >= " ++
            fmtQ cfg.daily_loss_limit_pct ++ "% (realized=" ++
            fmtQ daily_realized_pnl ++ ", unrealized=" ++
            fmtQ total_unrealized_pnl ++ ")"),
         { flags with daily_loss_halt := true })
      else
        -- 6. RISK-02 max open positions
        let open_count := Database.count_open_positions env.positions
        if open_count ≥ cfg.max_open_positions then
          ((false, s!"Max open positions reached: {open_count}/{cfg.max_open_positions}"),
           flags)
        else
          -- 7. H-14 duplicate-market check (skipped for exits)
          match (if s.metadata.is_exit then none
                 else (Database.get_open_positions env.positions).find?
                   (fun p => p.market_id = s.market_id)) with
          | some p =>
              ((false,
                "Market " ++ s.market_id.take 12 ++
                  "... already has position from strategy \x27" ++
                  p.strategy ++ "\x27"), flags)
          | none =>
            -- 8. RISK-01 max position size
            let position_pct := s.size / portfolio_value * 100
            if position_pct > cfg.max_position_pct then
              ((false, "Position size too large: " ++ fmtQ position_pct ++
                  "% > " ++ fmtQ cfg.max_position_pct ++ "%"), flags)
            -- 9. min position size
            else if s.size < cfg.min_position_size_usd then
              ((false, "Position below min size: $" ++ fmtQ s.size ++
                  " < $" ++ fmtQ cfg.min_position_size_usd), flags)
            else
              -- 10. RISK-03 per-strategy allocation
              let strategy_allocation := cfg.allocation s.strategy
              let max_allocation_usd := portfolio_value * (strategy_allocation / 100)
              let exposure := get_strategy_exposure env.positions s.strategy
              if strategy_allocation > 0 ∧ exposure + s.size > max_allocation_usd then
                ((false, "Strategy allocation exceeded: $" ++
                    fmtQ (exposure + s.size) ++ " > $" ++
                    fmtQ max_allocation_usd), flags)
              else
                -- 11. C-09 cash reserve, fail-closed on a second wallet read
                match env.wallet_usdc with
                | .error e =>
                    ((false, "Balance check failed (fail-closed): " ++ e), flags)
                | .ok usdc_balance =>
                  let min_reserve := portfolio_value * (cfg.min_cash_reserve_pct / 100)
                  if usdc_balance - s.size < min_reserve then
                    ((false, "Cash reserve: $" ++ fmtQ (usdc_balance - s.size) ++
                        " < $" ++ fmtQ min_reserve ++ " minimum"), flags)
                  else
                    -- 12. RISK-06 minimum edge
                    match s.metadata.edge_pct with
                    | some edge_pct =>
                        if edge_pct < cfg.min_edge_pct then
                          ((false, "Edge too low: " ++ fmtQ edge_pct ++ "% < " ++
                              fmtQ cfg.min_edge_pct ++ "%"), flags)
                        else ((true, "Approved"), flags)
                    | none => ((true, "Approved"), flags)

/-- The key `_KILL_SWITCH_DB_KEY` under which the kill switch is
persisted (`risk_manager.py`, module level). -/
def KILL_SWITCH_DB_KEY : String := "risk_kill_switch_active"

end RiskManager

/-- The state `activate_kill_switch` touches: the risk flags, the
`bot_metadata` table, the order manager's signal queue and whether the
`_order_manager` back-reference has been set (`set_order_manager`). -/
structure Engine where
  flags : RiskFlags
  bot_metadata : List MetaRow := []
  signal_queue : List Signal := []
  om_wired : Bool := true

namespace RiskManager

/-- `RiskManager.activate_kill_switch` (RISK-05, C-10, H-15): set the
in-memory flag, persist `"1"` under `risk_kill_switch_active`, and — when
the order-manager reference is wired — drain its signal queue to empty
(`OrderManager._drain_signal_queue` pops until the queue is empty). -/
def activate_kill_switch (now : ℚ) (e : Engine) : Engine :=
  { e with
    flags := { e.flags with kill_switch_active := true }
    bot_metadata := Database.set_metadata e.bot_metadata KILL_SWITCH_DB_KEY "1" now
    signal_queue := if e.om_wired then [] else e.signal_queue }

end RiskManager

/-! ## Order manager (`src/execution/order_manager.py`) -/

namespace OrderManager

/-- `MAX_EXIT_RETRIES` (H-03). -/
def MAX_EXIT_RETRIES : Nat := 3

/-- `EXIT_RETRY_BACKOFF_BASE` (seconds). -/
def EXIT_RETRY_BACKOFF_BASE : ℚ := 2

/-- The observable effects `_execute_signal` performs, in order.  `submit n`
is the `n`-th CLOB submission attempt for this signal (`0` = the initial
attempt, `1..3` = exit retries). -/
inductive Event
  | riskCheck
  | acquire
  | submit (attempt : Nat)
  | sleep (secs : ℚ)
  | recordTrade
  | openPosition
  deriving DecidableEq, Repr

/-- The deterministic environment a single `_execute_signal` call runs in:
the risk manager's verdict for this signal, the success/failure of each
submission attempt, and the order id the client returns on success. -/
structure ExecEnv where
  approve : Bool × String
  submit_ok : Nat → Bool
  order_id : String := "ord"

/-- `OrderManager._convert_usd_to_shares` (C-06). -/
def convert_usd_to_shares (usd_amount price : ℚ) : ℚ :=
  if price ≤ 0 then 0 else usd_amount / price

/-- `OrderManager._execute_signal_inner` (H-03): rate-limit acquire plus
one CLOB submission (the FOK fill-confirmation poll is folded into the
attempt's success bit).  It performs **no risk check and no DB
recording**. -/
def execute_signal_inner (env : ExecEnv) (attempt : Nat) : Bool × List Event :=
  (env.submit_ok attempt, [Event.acquire, Event.submit attempt])

/-- The `while retry_count < MAX_EXIT_RETRIES` loop of `_execute_signal`
(H-03): before the `n`-th retry sleep `2^n` seconds, then re-run
`_execute_signal_inner`; stop on the first success. -/
def exit_retry_loop (env : ExecEnv) (retry_count : Nat) : Bool × List Event :=
  if retry_count < MAX_EXIT_RETRIES then
    let n := retry_count + 1
    let backoff := EXIT_RETRY_BACKOFF_BASE ^ n
    let (ok, evs) := execute_signal_inner env n
    if ok then (true, Event.sleep backoff :: evs)
    else
      let rest := exit_retry_loop env n
      (rest.1, (Event.sleep backoff :: evs) ++ rest.2)
  else (false, [])
termination_by MAX_EXIT_RETRIES - retry_count
decreasing_by simp [MAX_EXIT_RETRIES] at *; omega

/-- The H-19 transaction body of `_execute_signal` on a successful
submission: `record_trade` (storing the signal's USD `size` and limit
`price`), then — for a non-exit BUY — `open_position` with
`entry_price=signal.price` and `size=signal.size`.  `fresh_pos_id` stands
for the `AUTOINCREMENT` id of the inserted position row. -/
def record_fill (sig : Signal) (order_id : String) (trades : TradesTable)
    (positions : List Position) (fresh_pos_id : Nat) (now : ℚ) :
    TradesTable × List Position × List Event :=
  let trades' := (Database.record_trade trades order_id sig.strategy
    sig.market_id sig.token_id sig.side sig.price sig.size sig.order_type
    sig.reasoning now).2
  if ¬sig.metadata.is_exit ∧ sig.side = "BUY" then
    let positions' := (Database.open_position positions fresh_pos_id
      sig.market_id sig.token_id sig.strategy sig.side sig.price sig.size
      sig.metadata.stop_loss_price
      { source_wallet := sig.metadata.source_wallet,
        yes_token_id := sig.metadata.yes_token_id } now).2
    (trades', positions', [Event.recordTrade, Event.openPosition])
  else (trades', positions, [Event.recordTrade])

/-- `OrderManager._execute_signal` (H-05, C-06, H-03): risk check, USD→share
conversion, rate-limit acquire, submit; on success record in one
transaction; on failure of an exit signal run the iterative retry loop.
Returns `(result, events, trades', positions')` where `result` is `none`
when the signal was dropped before submission. -/
def execute_signal (env : ExecEnv) (sig : Signal) (trades : TradesTable)
    (positions : List Position) (fresh_pos_id : Nat) (now : ℚ) :
    Option Bool × List Event × TradesTable × List Position :=
  if ¬env.approve.1 then (none, [Event.riskCheck], trades, positions)
  else
    let shares := convert_usd_to_shares sig.size sig.price
    if shares ≤ 0 then (none, [Event.riskCheck], trades, positions)
    else
      let ev0 := [Event.riskCheck, Event.acquire, Event.submit 0]
      if env.submit_ok 0 then
        let (trades', positions', evDb) :=
          record_fill sig env.order_id trades positions fresh_pos_id now
        (some true, ev0 ++ evDb, trades', positions')
      else if sig.metadata.is_exit then
        -- H-03: retries re-attempt only the CLOB submission; a success
        -- found here does not re-enter the recording branch above.
        let (ok, evs) := exit_retry_loop env sig.metadata.retry_count
        (some ok, ev0 ++ evs, trades, positions)
      else (some false, ev0, trades, positions)

end OrderManager

/-! ## Position manager (`src/execution/position_manager.py`) -/

/-- Python's `round(q, ndigits)` on the exact value: round half to even. -/
def roundHalfEven (q : ℚ) : ℤ :=
  let f := ⌊q⌋
  let r := q - f
  if r < 1 / 2 then f
  else if 1 / 2 < r then f + 1
  else if f % 2 = 0 then f else f + 1

/-- `round(q, ndigits)` (the values the claims exercise are exact
decimals, so binary-float artefacts do not arise). -/
def pyRound (q : ℚ) (ndigits : Nat) : ℚ :=
  (roundHalfEven (q * 10 ^ ndigits) : ℚ) / 10 ^ ndigits

namespace PositionManager

/-- `TAKER_FEE_RATE` (H-06). -/
def TAKER_FEE_RATE : ℚ := 315 / 10000

/-- `WINNER_FEE_RATE` (H-06). -/
def WINNER_FEE_RATE : ℚ := 2 / 100

/-- The slice of `StrategyConfig` the position manager reads. -/
structure PmConfig where
  stop_loss_pct : ℚ := 25
  trailing_stop_pct : ℚ := 10
  /-- `get_take_profit_tiers()`: ordered `(gain_pct, sell_pct)` pairs. -/
  take_profit_tiers : List (ℚ × ℚ) := []

/-- Python truthiness of the `trailing_stop_price` value
(`if trailing_price:`): `None` and `0.0` are both falsy. -/
def truthy : Option ℚ → Bool
  | none => false
  | some q => decide (q ≠ 0)

/-- `_calc_gross_pnl` (M-15). -/
def calc_gross_pnl (side : String) (entry_price exit_price size_shares : ℚ) : ℚ :=
  if side = "BUY" then (exit_price - entry_price) * size_shares
  else (entry_price - exit_price) * size_shares

/-- `_calc_pnl_pct`. -/
def calc_pnl_pct (side : String) (entry_price current_price : ℚ) : ℚ :=
  if entry_price ≤ 0 then 0
  else if side = "BUY" then (current_price - entry_price) / entry_price * 100
  else (entry_price - current_price) / entry_price * 100

/-- `_estimate_fees` (H-06). -/
def estimate_fees (entry_price exit_price size_shares : ℚ) : ℚ :=
  size_shares * entry_price * TAKER_FEE_RATE +
    size_shares * exit_price * TAKER_FEE_RATE

/-- `Database.update_position_price` applied to the matching row. -/
def update_position_price_row (p : Position) (current_price : ℚ) : Position :=
  let unrealized :=
    if p.side = "BUY" then (current_price - p.entry_price) * p.size
    else (p.entry_price - current_price) * p.size
  { p with current_price := some current_price, unrealized_pnl := unrealized }

/-- `PositionManager._close_position` for one position: C-08 guard,
net-P&L estimate, full-exit signal (side flipped, FOK, high urgency,
USD notional `shares × exit_price`), then `set_position_closing` (C-07)
and guard insertion.  The signal's `reasoning` is
`f"Position close: {reason} (P&L: {pnl_pct:+.1f}%)"`, with `fmtQ`
standing in for the float format. -/
def close_position_step (pos : Position) (exit_price : ℚ) (reason : String)
    (pnl_pct : ℚ) (guard : List Nat) : Position × List Signal × List Nat :=
  if pos.id ∈ guard then (pos, [], guard)
  else
    let gross_pnl := calc_gross_pnl pos.side pos.entry_price exit_price pos.size
    let fees := estimate_fees pos.entry_price exit_price pos.size
    let realized_pnl := gross_pnl - fees
    let sell_side := if pos.side = "BUY" then "SELL" else "BUY"
    let sig : Signal :=
      { strategy := pos.strategy, market_id := pos.market_id,
        token_id := pos.token_id, side := sell_side, price := exit_price,
        size := pos.size * exit_price, order_type := "FOK", urgency := "high",
        reasoning := "Position close: " ++ reason ++ " (P&L: " ++
          fmtQ pnl_pct ++ "%)",
        metadata := { is_exit := true, position_id := some pos.id,
                      realized_pnl := some (pyRound realized_pnl 4) } }
    (Database.setPositionClosingRow reason pos, [sig], pos.id :: guard)

/-- `PositionManager._partial_close`: partial-exit signal (USD notional
`sell_size × price`, reasoning `f"Partial take-profit tier {tier_index}"`)
and `update_position_partial_close` (remaining size, tier counter). -/
def partial_close_step (pos : Position) (price sell_size : ℚ)
    (tier_index : Nat) : Position × List Signal :=
  let sell_side := if pos.side = "BUY" then "SELL" else "BUY"
  let sig : Signal :=
    { strategy := pos.strategy, market_id := pos.market_id,
      token_id := pos.token_id, side := sell_side, price := price,
      size := sell_size * price, order_type := "FOK", urgency := "high",
      reasoning := "Partial take-profit tier " ++ toString tier_index,
      metadata := { is_exit := true, position_id := some pos.id } }
  ({ pos with size := pos.size - sell_size,
              take_profit_triggered := tier_index }, [sig])

/-- The take-profit tier loop of `on_price_update`: indices below the
tier counter are skipped (`continue`); the first remaining tier whose
`gain_pct ≤ pnl_pct` fires (`break`). -/
def find_tier (tp_triggered : Nat) (pnl_pct : ℚ) :
    List (ℚ × ℚ) → Nat → Option (Nat × ℚ × ℚ)
  | [], _ => none
  | (gain_pct, sell_pct) :: rest, i =>
      if i < tp_triggered then find_tier tp_triggered pnl_pct rest (i + 1)
      else if pnl_pct ≥ gain_pct then some (i, gain_pct, sell_pct)
      else find_tier tp_triggered pnl_pct rest (i + 1)

/-- The outcome of one `on_price_update` loop iteration for one position:
the row after all DB writes, the exit signals submitted, and the
in-flight-close guard set. -/
structure StepResult where
  pos : Position
  signals : List Signal
  guard : List Nat
  deriving Repr

/-- The POS-02 take-profit block of `on_price_update`: the first firing
tier (if any) triggers either a full close or a partial close; after a
partial close that fired while no trailing stop was set, the trailing
stop is initialized (`trailing0` is the *local* `trailing_price`
variable read before the loop). -/
def tier_section (cfg : PmConfig) (guard : List Nat) (price : ℚ)
    (trailing0 : Option ℚ) (pnl_pct : ℚ) (p1 : Position) :
    Position × List Signal × List Nat :=
  match find_tier p1.take_profit_triggered pnl_pct cfg.take_profit_tiers 0 with
  | none => (p1, [], guard)
  | some (i, _gain_pct, sell_pct) =>
      if sell_pct ≥ 100 then
        close_position_step p1 price "take_profit" pnl_pct guard
      else
        let sell_size := p1.size * (sell_pct / 100)
        let pc := partial_close_step p1 price sell_size (i + 1)
        let new_low := price * (1 - cfg.trailing_stop_pct / 100)
        let new_high := price * (1 + cfg.trailing_stop_pct / 100)
        let p3 :=
          if truthy trailing0 then pc.1
          else if (pc.1).side = "BUY" then
            { pc.1 with trailing_stop_price := some new_low }
          else
            { pc.1 with trailing_stop_price := some new_high }
        (p3, pc.2, guard)

/-- The H-07 trailing-ratchet block of `on_price_update`: when the
*local* `trailing_price` variable was truthy and P&L is positive, raise
the floor (BUY) or lower the ceiling (SELL). -/
def ratchet (cfg : PmConfig) (price : ℚ) (trailing0 : Option ℚ)
    (pnl_pct : ℚ) (pA : Position) : Position :=
  if truthy trailing0 ∧ pnl_pct > 0 then
    if pA.side = "BUY" then
      let new_trailing := price * (1 - cfg.trailing_stop_pct / 100)
      if new_trailing > trailing0.getD 0 then
        { pA with trailing_stop_price := some new_trailing }
      else pA
    else if pA.side = "SELL" then
      let new_trailing := price * (1 + cfg.trailing_stop_pct / 100)
      if new_trailing < trailing0.getD 0 then
        { pA with trailing_stop_price := some new_trailing }
      else pA
    else pA
  else pA

/-- One iteration of `PositionManager.on_price_update` for a single
position: token match, C-08 guard skip, C-07 closing skip, price/P&L
update, stop-loss, trailing stop, take-profit tiers (with trailing
initialization after a first partial tier), and the H-07 trailing
ratchet.  The ratchet block tests the *local* `trailing_price` read
before the tier loop, so it does not run on the update that initialized
the trailing stop; it does run (on the original value) after a tier
full-close, mirroring the `break` falling through in the source. -/
def on_price_update_step (cfg : PmConfig) (guard : List Nat)
    (token_id : String) (price : ℚ) (p : Position) : StepResult :=
  if p.token_id ≠ token_id then ⟨p, [], guard⟩
  else if p.id ∈ guard then ⟨p, [], guard⟩
  else if p.status = .closing then ⟨p, [], guard⟩
  else
    let p1 := update_position_price_row p price
    let pnl_pct := calc_pnl_pct p1.side p1.entry_price price
    if pnl_pct ≤ -cfg.stop_loss_pct then
      let r := close_position_step p1 price "stop_loss" pnl_pct guard
      ⟨r.1, r.2.1, r.2.2⟩
    else
      let trailing0 := p1.trailing_stop_price
      if truthy trailing0 ∧
          ((p1.side = "BUY" ∧ price ≤ trailing0.getD 0) ∨
           (p1.side = "SELL" ∧ price ≥ trailing0.getD 0)) then
        let r := close_position_step p1 price "trailing_stop" pnl_pct guard
        ⟨r.1, r.2.1, r.2.2⟩
      else
        let a := tier_section cfg guard price trailing0 pnl_pct p1
        ⟨ratchet cfg price trailing0 pnl_pct a.1, a.2.1, a.2.2⟩

/-- One iteration of `PositionManager.check_market_resolution` (POS-05,
H-06) for a single open/closing position: decide whether the held token
won, settle at resolution price `1.0`/`0.0` (mirrored for a short side),
deduct the entry fee and — on a positive gross — the winner fee, drop the
id from the in-flight-close guard, and `close_position` the row.  Note the
row moves to CLOSED by `Database.close_position` directly, whatever its
prior live status. -/
def check_market_resolution_step (market_id outcome : String) (now : ℚ)
    (guard : List Nat) (pos : Position) : Position × List Nat :=
  if pos.market_id ≠ market_id then (pos, guard)
  else
    let outcome_lower := outcome.toLower
    let token_won := pos.token_id = outcome ∨
      (outcome_lower = "yes" ∧ pos.token_id = pos.metadata.yes_token_id.getD "")
    let resolution_price : ℚ :=
      if pos.side = "BUY" then (if token_won then 1 else 0)
      else (if token_won then 0 else 1)
    let gross_pnl :=
      if pos.side = "BUY" then (resolution_price - pos.entry_price) * pos.size
      else (pos.entry_price - resolution_price) * pos.size
    let entry_fee := pos.size * pos.entry_price * TAKER_FEE_RATE
    let winner_fee :=
      if gross_pnl > 0 then resolution_price * pos.size * WINNER_FEE_RATE else 0
    let realized_pnl := gross_pnl - entry_fee - winner_fee
    (Database.closePositionRow realized_pnl "market_resolved" now pos,
     guard.filter (· ≠ pos.id))

end PositionManager

/-- `true` when `needle` occurs as a contiguous run inside `hay`
(used to state "the reason contains …" claims about message strings). -/
def charsContain (needle : List Char) : List Char → Bool
  | [] => needle.isEmpty
  | c :: rest => needle.isPrefixOf (c :: rest) || charsContain needle rest

/-- String containment. -/
def strContains (needle hay : String) : Bool :=
  charsContain needle.toList hay.toList

/-! ## Mirror strategy (`src/strategies/copy_trader.py`) -/

namespace CopyTrader

/-- `_POSITION_DECREASE_THRESHOLD`: a 30% decrease triggers a copy SELL. -/
def POSITION_DECREASE_THRESHOLD : ℚ := 7 / 10

/-- `_MIN_EXIT_SIZE_USD`. -/
def MIN_EXIT_SIZE_USD : ℚ := 10

/-- An entry of the whale-position cache / snapshot:
`{size, avg_price}` for one `(market_id, token_id)` key. -/
structure WhaleData where
  size : ℚ
  avg_price : ℚ := 0
  deriving DecidableEq, Repr

/-- `CopyTrader._detect_whale_exits` for one tracked account: for each
previously cached `(market_id, token_id)` entry, classify the change
(absent → 100% reduction; shrunk below 70% of the previous size →
proportional reduction; otherwise skip), look up the engine's own
matching open copy position (same token, metadata `source_wallet` equal
to the account), fetch a live price, apply the `$10` exit floor, and emit
one SELL signal with USD notional
`round(entry_price × size × reduction/100, 2)`.  `fmtQ` stands in for the
float formats inside `reasoning` and `exit_type`. -/
def detect_whale_exits (address : String) (order_type : String)
    (prev : List ((String × String) × WhaleData))
    (current : (String × String) → Option WhaleData)
    (positions : List Position) (price_of : String → Option ℚ) :
    List Signal :=
  prev.filterMap fun entry =>
    let market_id := entry.1.1
    let token_id := entry.1.2
    let prev_size := entry.2.size
    let change : Option (ℚ × ℚ) :=
      match current entry.1 with
      | none => some (100, 0)
      | some current_data =>
          if current_data.size ≥ prev_size * POSITION_DECREASE_THRESHOLD then
            none
          else
            some ((prev_size - current_data.size) / prev_size * 100,
                  current_data.size)
    match change with
    | none => none
    | some (reduction_pct, remaining_size) =>
        match (Database.get_open_positions_of positions "copy_trader").find?
            (fun p => p.metadata.source_wallet = some address ∧
                      p.token_id = token_id) with
        | none => none
        | some matching_pos =>
            match price_of token_id with
            | none => none
            | some current_price =>
                let our_entry_size_usd :=
                  matching_pos.entry_price * matching_pos.size
                let exit_size_usd := our_entry_size_usd * (reduction_pct / 100)
                if exit_size_usd < MIN_EXIT_SIZE_USD then none
                else
                  let exit_type :=
                    if remaining_size = 0 then "full exit"
                    else fmtQ reduction_pct ++ "% reduction"
                  some
                    { strategy := "copy_trader", market_id := market_id,
                      token_id := token_id, side := "SELL",
                      price := current_price,
                      size := pyRound exit_size_usd 2,
                      order_type := order_type,
                      reasoning := "Whale exit copy: " ++ exit_type ++
                        " (prev " ++ fmtQ prev_size ++ " -> " ++
                        fmtQ remaining_size ++ " shares)",
                      metadata :=
                        { source_wallet := some address,
                          exit_type := some exit_type,
                          whale_reduction_pct := some (pyRound reduction_pct 1),
                          matching_position_id := some matching_pos.id } }

end CopyTrader

/-! ## Claim theorems -/

/-- C8: `record_rate_limit` increments the consecutive-failure counter,
zeroes the success streak, and sets `backoff_until = now + min(2^F, 60)`;
`record_success` leaves the failure counter at zero exactly when three
consecutive successes have accumulated (or it already was zero); and the
scenario "one throttle, three successes, another throttle" ends with a
backoff of 2 seconds, not 4. -/
theorem C8_rate_limit_hysteresis (s : RateLimiter) (now now2 : ℚ) :
    (s.record_rate_limit now).consecutive_rate_limits
        = s.consecutive_rate_limits + 1 ∧
    (s.record_rate_limit now).consecutive_successes = 0 ∧
    (s.record_rate_limit now).backoff_until
        = now + min ((2 : ℚ) ^ (s.consecutive_rate_limits + 1)) 60 ∧
    ((s.record_success).consecutive_rate_limits = 0 ↔
        s.consecutive_successes + 1 ≥ 3 ∨ s.consecutive_rate_limits = 0) ∧
    (RateLimiter.record_rate_limit now2
        (RateLimiter.record_success (RateLimiter.record_success
          (RateLimiter.record_success
            (RateLimiter.record_rate_limit now ⟨0, 0, 0⟩))))).backoff_until
      = now2 + 2 := by
  refine ⟨rfl, rfl, rfl, ?_, ?_⟩
  · unfold RateLimiter.record_success
    by_cases h : s.consecutive_successes + 1 ≥ 3 <;> simp [h]
  · unfold RateLimiter.record_rate_limit RateLimiter.record_success
    norm_num

/-- C9: with no prior row for the order id, calling `record_trade` twice
with that order id (arbitrary field values on each call) leaves the table
of the first call unchanged, returns the same row id both times, and the
table holds exactly one row with that order id. -/
theorem C9_record_trade_idempotent (tbl : TradesTable)
    (oid sa ma ta da ota ra sb mb tb db otb rb : String) (pa za na pb zb nb : ℚ)
    (h : ∀ t ∈ tbl.rows, t.order_id ≠ oid) :
    (Database.record_trade
        (Database.record_trade tbl oid sa ma ta da pa za ota ra na).2
        oid sb mb tb db pb zb otb rb nb).1
      = (Database.record_trade tbl oid sa ma ta da pa za ota ra na).1 ∧
    (Database.record_trade
        (Database.record_trade tbl oid sa ma ta da pa za ota ra na).2
        oid sb mb tb db pb zb otb rb nb).2
      = (Database.record_trade tbl oid sa ma ta da pa za ota ra na).2 ∧
    (((Database.record_trade tbl oid sa ma ta da pa za ota ra na).2).rows.filter
        (fun t => t.order_id = oid)).length = 1 := by
  have hfind : tbl.rows.find? (fun t => t.order_id = oid) = none := by
    apply List.find?_eq_none.mpr
    intro t ht
    simpa using h t ht
  have hfilter : tbl.rows.filter (fun t => t.order_id = oid) = [] := by
    apply List.filter_eq_nil_iff.mpr
    intro t ht
    simpa using h t ht
  unfold Database.record_trade
  simp [hfind, List.find?_append, hfilter]

/-- C9 witness: the double-submit scenario on an empty table (S2 of the
spec): both calls return row id 1 and the table has one `ord-1` row. -/
theorem C9_witness :
    (Database.record_trade
        (Database.record_trade { rows := [], next_id := 1 } "ord-1" "s" "m" "t"
          "BUY" (2/5) 25 "GTC" "" 0).2
        "ord-1" "s2" "m2" "t2" "SELL" (1/2) 30 "FOK" "again" 1).1
      = (Database.record_trade { rows := [], next_id := 1 } "ord-1" "s" "m" "t"
          "BUY" (2/5) 25 "GTC" "" 0).1 ∧
    (Database.record_trade
        (Database.record_trade { rows := [], next_id := 1 } "ord-1" "s" "m" "t"
          "BUY" (2/5) 25 "GTC" "" 0).2
        "ord-1" "s2" "m2" "t2" "SELL" (1/2) 30 "FOK" "again" 1).2
      = (Database.record_trade { rows := [], next_id := 1 } "ord-1" "s" "m" "t"
          "BUY" (2/5) 25 "GTC" "" 0).2 ∧
    (((Database.record_trade { rows := [], next_id := 1 } "ord-1" "s" "m" "t"
          "BUY" (2/5) 25 "GTC" "" 0).2).rows.filter
        (fun t => t.order_id = "ord-1")).length = 1 :=
  C9_record_trade_idempotent { rows := [], next_id := 1 } "ord-1" "s" "m" "t"
    "BUY" "GTC" "" "s2" "m2" "t2" "SELL" "FOK" "again" (2/5) 25 0 (1/2) 30 1
    (by intro t ht; simp at ht)

/-- C10: `close_position` applied to an id whose row is already CLOSED is
a no-op on the whole positions table — the `status IN ('open','closing')`
guard means the realized P&L, close reason and closed-at stamps of a
closed row are never overwritten by a later close call. -/
theorem C10_close_position_closed_frame (tbl : List Position)
    (position_id : Nat) (realized_pnl : ℚ) (close_reason : String) (now : ℚ)
    (h : ∀ p ∈ tbl, p.id = position_id → p.status = .closed) :
    Database.close_position tbl position_id realized_pnl close_reason now
      = tbl := by
  induction tbl with
  | nil => rfl
  | cons a l ih =>
      have ha := h a (by simp)
      have hl : Database.close_position l position_id realized_pnl close_reason now = l :=
        ih (fun p hp hpid => h p (by simp [hp]) hpid)
      unfold Database.close_position at *
      simp only [List.map_cons, List.cons.injEq]
      refine ⟨?_, hl⟩
      by_cases hid : a.id = position_id
      · simp [hid, Database.closePositionRow, ha hid]
      · simp [hid]

/-- C10 witness: a concrete closed row is untouched by a second close. -/
theorem C10_witness :
    Database.close_position
        [{ id := 7, market_id := "m", token_id := "t", strategy := "s",
           side := "BUY", entry_price := 1/2, size := 10,
           realized_pnl := 3, status := .closed,
           close_reason := some "take_profit", closed_at := some 1 }]
        7 99 "later" 2
      = [{ id := 7, market_id := "m", token_id := "t", strategy := "s",
           side := "BUY", entry_price := 1/2, size := 10,
           realized_pnl := 3, status := .closed,
           close_reason := some "take_profit", closed_at := some 1 }] := by
  apply C10_close_position_closed_frame
  intro p hp _
  simp at hp
  simp [hp]

/-! Helper lemmas about the position-manager step (shared by several
claim proofs below). -/

/-- `_close_position` either leaves the row alone (C-08 guard hit) or
applies `set_position_closing` to it. -/
theorem pm_close_step_fst (pos : Position) (price : ℚ) (reason : String)
    (pnl : ℚ) (guard : List Nat) :
    (PositionManager.close_position_step pos price reason pnl guard).1 = pos ∨
    (PositionManager.close_position_step pos price reason pnl guard).1
      = Database.setPositionClosingRow reason pos := by
  unfold PositionManager.close_position_step
  by_cases h : pos.id ∈ guard
  · simp [h]
  · simp [h]

/-- `set_position_closing` never produces a CLOSED row from a live one. -/
theorem set_closing_status_ne_closed {pos : Position} (reason : String)
    (h : pos.status ≠ .closed) :
    (Database.setPositionClosingRow reason pos).status ≠ .closed := by
  unfold Database.setPositionClosingRow
  split <;> simp_all

/-- `_close_position` never produces a CLOSED row from a live one. -/
theorem pm_close_step_status_ne_closed {pos : Position} (price : ℚ)
    (reason : String) (pnl : ℚ) (guard : List Nat) (h : pos.status ≠ .closed) :
    ((PositionManager.close_position_step pos price reason pnl guard).1).status
      ≠ .closed := by
  rcases pm_close_step_fst pos price reason pnl guard with he | he <;> rw [he]
  · exact h
  · exact set_closing_status_ne_closed reason h

/-- `set_position_closing` does not touch the tier counter. -/
theorem set_closing_tp (pos : Position) (reason : String) :
    (Database.setPositionClosingRow reason pos).take_profit_triggered
      = pos.take_profit_triggered := by
  unfold Database.setPositionClosingRow
  split <;> rfl

/-- `_close_position` does not touch the tier counter. -/
theorem pm_close_step_tp (pos : Position) (price : ℚ) (reason : String)
    (pnl : ℚ) (guard : List Nat) :
    ((PositionManager.close_position_step pos price reason pnl
      guard).1).take_profit_triggered = pos.take_profit_triggered := by
  rcases pm_close_step_fst pos price reason pnl guard with he | he <;> rw [he]
  exact set_closing_tp pos reason

/-- `_close_position` submits at most one exit signal. -/
theorem pm_close_step_signals_le_one (pos : Position) (price : ℚ)
    (reason : String) (pnl : ℚ) (guard : List Nat) :
    ((PositionManager.close_position_step pos price reason pnl
      guard).2.1).length ≤ 1 := by
  unfold PositionManager.close_position_step
  by_cases h : pos.id ∈ guard <;> simp [h]

/-- The tier the take-profit loop fires is never below the stored tier
counter (indices `i < tp_triggered` are skipped). -/
theorem find_tier_ge (tp : Nat) (pnl : ℚ) (tiers : List (ℚ × ℚ)) :
    ∀ (j i : Nat) (g s : ℚ),
      PositionManager.find_tier tp pnl tiers j = some (i, g, s) →
        j ≤ i ∧ tp ≤ i := by
  induction tiers with
  | nil =>
      intro j i g s h
      simp [PositionManager.find_tier] at h
  | cons hd tl ih =>
      intro j i g s h
      obtain ⟨g0, s0⟩ := hd
      unfold PositionManager.find_tier at h
      by_cases hj : j < tp
      · rw [if_pos hj] at h
        have := ih (j + 1) i g s h
        omega
      · rw [if_neg hj] at h
        by_cases hp : pnl ≥ g0
        · rw [if_pos hp] at h
          simp at h
          omega
        · rw [if_neg hp] at h
          have := ih (j + 1) i g s h
          omega

/-- Projections of `update_position_price` on a row. -/
theorem upd_price_row_proj (p : Position) (price : ℚ) :
    (PositionManager.update_position_price_row p price).status = p.status ∧
    (PositionManager.update_position_price_row p price).take_profit_triggered
      = p.take_profit_triggered := ⟨rfl, rfl⟩

/-- The ratchet block only moves the trailing price. -/
theorem ratchet_status (cfg : PositionManager.PmConfig) (price : ℚ)
    (trailing0 : Option ℚ) (pnl : ℚ) (pA : Position) :
    (PositionManager.ratchet cfg price trailing0 pnl pA).status = pA.status := by
  unfold PositionManager.ratchet
  dsimp only
  repeat' split
  all_goals rfl

/-- The ratchet block does not touch the tier counter. -/
theorem ratchet_tp (cfg : PositionManager.PmConfig) (price : ℚ)
    (trailing0 : Option ℚ) (pnl : ℚ) (pA : Position) :
    (PositionManager.ratchet cfg price trailing0 pnl pA).take_profit_triggered
      = pA.take_profit_triggered := by
  unfold PositionManager.ratchet
  dsimp only
  repeat' split
  all_goals rfl

/-- The take-profit block never produces a CLOSED row from a live one. -/
theorem tier_section_status_ne_closed {p1 : Position}
    (cfg : PositionManager.PmConfig) (guard : List Nat) (price : ℚ)
    (trailing0 : Option ℚ) (pnl : ℚ) (h : p1.status ≠ .closed) :
    ((PositionManager.tier_section cfg guard price trailing0 pnl
      p1).1).status ≠ .closed := by
  unfold PositionManager.tier_section
  split
  · exact h
  · split
    · exact pm_close_step_status_ne_closed _ _ _ _ h
    · dsimp only
      repeat' split
      all_goals
        simp_all [PositionManager.partial_close_step]

/-- The take-profit block never decreases the tier counter. -/
theorem tier_section_tp_mono (p1 : Position)
    (cfg : PositionManager.PmConfig) (guard : List Nat) (price : ℚ)
    (trailing0 : Option ℚ) (pnl : ℚ) :
    p1.take_profit_triggered ≤
      ((PositionManager.tier_section cfg guard price trailing0 pnl
        p1).1).take_profit_triggered := by
  unfold PositionManager.tier_section
  split
  · exact Nat.le_refl _
  · rename_i i g s hft
    split
    · rw [pm_close_step_tp]
    · have hge := find_tier_ge p1.take_profit_triggered pnl
        cfg.take_profit_tiers 0 i g s hft
      dsimp only
      repeat' split
      all_goals
        simp only [PositionManager.partial_close_step]
        omega

/-- The take-profit block submits at most one exit signal. -/
theorem tier_section_signals_le_one (p1 : Position)
    (cfg : PositionManager.PmConfig) (guard : List Nat) (price : ℚ)
    (trailing0 : Option ℚ) (pnl : ℚ) :
    ((PositionManager.tier_section cfg guard price trailing0 pnl
      p1).2.1).length ≤ 1 := by
  unfold PositionManager.tier_section
  split
  · simp
  · split
    · exact pm_close_step_signals_le_one _ _ _ _ _
    · simp [PositionManager.partial_close_step]

/-- Reading back an upserted key: helper over the map branch of
`set_metadata`. -/
theorem get_metadata_map_upd (l : List MetaRow) (k v : String) (now : ℚ)
    (h : ∃ r ∈ l, r.key = k) :
    Database.get_metadata
        (l.map fun r =>
          if r.key = k then { r with value := v, updated_at := now } else r) k
      = some v := by
  induction l with
  | nil => simp at h
  | cons a l ih =>
      by_cases hk : a.key = k
      · simp [Database.get_metadata, hk]
      · obtain ⟨r, hr, hrk⟩ := h
        rcases List.mem_cons.mp hr with rfl | hr'
        · exact absurd hrk hk
        · have := ih ⟨r, hr', hrk⟩
          simpa [Database.get_metadata, hk] using this

/-- `get_metadata` after `set_metadata` on the same key returns the value
just written. -/
theorem get_set_metadata (tbl : List MetaRow) (k v : String) (now : ℚ) :
    Database.get_metadata (Database.set_metadata tbl k v now) k = some v := by
  unfold Database.set_metadata
  by_cases hany : tbl.any (fun r => r.key = k)
  · rw [if_pos (by simpa using hany)]
    apply get_metadata_map_upd
    simpa using hany
  · rw [if_neg (by simpa using hany)]
    have hnone : tbl.find? (fun r => r.key = k) = none := by
      apply List.find?_eq_none.mpr
      intro r hr hk
      exact hany (List.any_eq_true.mpr ⟨r, hr, hk⟩)
    simp [Database.get_metadata, List.find?_append, hnone]

/-- C1 counterexample: `close_position` applied to a position whose status
is OPEN transitions it directly to CLOSED — the claimed invariant "a
position reaches CLOSED only from CLOSING" fails on the code, whose SQL
guard is `status IN ('open','closing')` and whose market-resolution path
closes OPEN positions without queuing any exit. -/
theorem C1_counterexample :
    ({ id := 1, market_id := "m", token_id := "t", strategy := "s",
       side := "BUY", entry_price := 2/5, size := 100,
       status := .open_ } : Position).status = PosStatus.open_ ∧
    (Database.closePositionRow 1 "market_resolved" 5
      { id := 1, market_id := "m", token_id := "t", strategy := "s",
        side := "BUY", entry_price := 2/5, size := 100,
        status := .open_ }).status = PosStatus.closed ∧
    ((PositionManager.check_market_resolution_step "m" "t" 5 []
      { id := 1, market_id := "m", token_id := "t", strategy := "s",
        side := "BUY", entry_price := 2/5, size := 100,
        status := .open_ }).1).status = PosStatus.closed := by
  refine ⟨rfl, by decide, by decide⟩

/-- C1 amended: `close_position` moves a position to CLOSED from either
OPEN or CLOSING (its SQL guard), and market resolution settles an OPEN
position directly to CLOSED; only the price-update exit path is confined
to OPEN → CLOSING (`set_position_closing`), so the
"CLOSED only after CLOSING" invariant holds for price-triggered exits but
not for `close_position` on an OPEN row or for resolution settlement. -/
theorem C1_closed_reachable_from_open (p : Position) (realized_pnl : ℚ)
    (reason outcome : String) (now price : ℚ)
    (cfg : PositionManager.PmConfig) (guard : List Nat) (token_id : String) :
    (p.status = .open_ ∨ p.status = .closing →
      (Database.closePositionRow realized_pnl reason now p).status = .closed) ∧
    (p.status = .open_ →
      ((PositionManager.check_market_resolution_step p.market_id outcome now
        guard p).1).status = .closed) ∧
    (p.status = .open_ →
      (Database.setPositionClosingRow reason p).status = .closing) ∧
    (p.status ≠ .closed →
      (PositionManager.on_price_update_step cfg guard token_id price
        p).pos.status ≠ .closed) := by
  refine ⟨?_, ?_, ?_, ?_⟩
  · intro h
    simp [Database.closePositionRow, h]
  · intro h
    simp [PositionManager.check_market_resolution_step,
      Database.closePositionRow, h]
  · intro h
    simp [Database.setPositionClosingRow, h]
  · intro hne
    by_cases h1 : p.token_id ≠ token_id
    · simpa [PositionManager.on_price_update_step, h1] using hne
    by_cases h2 : p.id ∈ guard
    · simpa [PositionManager.on_price_update_step, h1, h2] using hne
    by_cases h3 : p.status = PosStatus.closing
    · simp [PositionManager.on_price_update_step, h1, h2, h3]
    have hp1 : (PositionManager.update_position_price_row p price).status
        ≠ PosStatus.closed := by
      rw [(upd_price_row_proj p price).1]; exact hne
    simp only [PositionManager.on_price_update_step, h1, h2, h3,
      if_false, ite_false, if_neg]
    split
    · exact pm_close_step_status_ne_closed _ _ _ _ hp1
    split
    · exact pm_close_step_status_ne_closed _ _ _ _ hp1
    · show ((PositionManager.ratchet _ _ _ _ _)).status ≠ _
      rw [ratchet_status]
      exact tier_section_status_ne_closed _ _ _ _ _ hp1

/-- C1 witness: the amended theorem at a concrete OPEN position. -/
theorem C1_witness :
    (Database.closePositionRow 2 "take_profit" 9
      { id := 3, market_id := "mk", token_id := "tk", strategy := "s",
        side := "BUY", entry_price := 1/2, size := 4,
        status := .open_ }).status = PosStatus.closed ∧
    (Database.setPositionClosingRow "stop_loss"
      { id := 3, market_id := "mk", token_id := "tk", strategy := "s",
        side := "BUY", entry_price := 1/2, size := 4,
        status := .open_ }).status = PosStatus.closing := by
  have h := C1_closed_reachable_from_open
    { id := 3, market_id := "mk", token_id := "tk", strategy := "s",
      side := "BUY", entry_price := 1/2, size := 4, status := .open_ }
    2 "take_profit" "yes" 9 (1/2) {} [] "tk"
  exact ⟨h.1 (Or.inl rfl), h.2.2.1 rfl⟩

/-- C5 counterexample: after activation the rejection reason is
`"Kill switch active"` (capital K), not `"kill switch active"`, and the
durable flag lives under the key `"risk_kill_switch_active"` — the key
`"risk.kill_switch_active"` named by the claim holds nothing. -/
theorem C5_counterexample :
    (RiskManager.approve_signal {} { wallet_usdc := .ok 100, positions := [] }
        (RiskManager.activate_kill_switch 0
          { flags := {}, bot_metadata := [], signal_queue := [],
            om_wired := true }).flags
        { strategy := "s", market_id := "m", token_id := "t", side := "BUY",
          price := 1/2, size := 100 }).1.2 = "Kill switch active" ∧
    "Kill switch active" ≠ "kill switch active" ∧
    Database.get_metadata
        (RiskManager.activate_kill_switch 0
          { flags := {}, bot_metadata := [], signal_queue := [],
            om_wired := true }).bot_metadata
        "risk.kill_switch_active" = none ∧
    Database.get_metadata
        (RiskManager.activate_kill_switch 0
          { flags := {}, bot_metadata := [], signal_queue := [],
            om_wired := true }).bot_metadata
        "risk_kill_switch_active" = some "1" := by
  refine ⟨rfl, by decide, by decide, rfl⟩

/-- C5 amended: after `activate_kill_switch()` with the order-manager
reference wired, `approve_signal` returns
`(False, "Kill switch active")` for every intent (leaving the flags
unchanged), the durable metadata key `risk_kill_switch_active` holds
`"1"`, and the order manager's signal queue has been drained to empty. -/
theorem C5_kill_switch_activation (e : Engine) (now : ℚ)
    (cfg : StrategyConfig) (env : RiskEnv) (sig : Signal)
    (h : e.om_wired = true) :
    RiskManager.approve_signal cfg env
        (RiskManager.activate_kill_switch now e).flags sig
      = ((false, "Kill switch active"),
         (RiskManager.activate_kill_switch now e).flags) ∧
    Database.get_metadata
        (RiskManager.activate_kill_switch now e).bot_metadata
        RiskManager.KILL_SWITCH_DB_KEY = some "1" ∧
    (RiskManager.activate_kill_switch now e).signal_queue = [] := by
  refine ⟨?_, ?_, ?_⟩
  · simp [RiskManager.approve_signal, RiskManager.activate_kill_switch]
  · exact get_set_metadata _ _ _ _
  · simp [RiskManager.activate_kill_switch, h]

/-- C5 witness: the amended theorem at a concrete engine with three
queued intents. -/
theorem C5_witness :
    RiskManager.approve_signal {} { wallet_usdc := .ok 500, positions := [] }
        (RiskManager.activate_kill_switch 7
          { flags := {}, bot_metadata := [],
            signal_queue :=
              [{ strategy := "a", market_id := "m1", token_id := "t1",
                 side := "BUY", price := 1/2, size := 10 },
               { strategy := "b", market_id := "m2", token_id := "t2",
                 side := "SELL", price := 1/4, size := 20 },
               { strategy := "c", market_id := "m3", token_id := "t3",
                 side := "BUY", price := 3/4, size := 30 }],
            om_wired := true }).flags
        { strategy := "s", market_id := "m", token_id := "t", side := "BUY",
          price := 1/2, size := 100 }
      = ((false, "Kill switch active"),
         (RiskManager.activate_kill_switch 7
          { flags := {}, bot_metadata := [],
            signal_queue :=
              [{ strategy := "a", market_id := "m1", token_id := "t1",
                 side := "BUY", price := 1/2, size := 10 },
               { strategy := "b", market_id := "m2", token_id := "t2",
                 side := "SELL", price := 1/4, size := 20 },
               { strategy := "c", market_id := "m3", token_id := "t3",
                 side := "BUY", price := 3/4, size := 30 }],
            om_wired := true }).flags) ∧
    Database.get_metadata
        (RiskManager.activate_kill_switch 7
          { flags := {}, bot_metadata := [],
            signal_queue :=
              [{ strategy := "a", market_id := "m1", token_id := "t1",
                 side := "BUY", price := 1/2, size := 10 },
               { strategy := "b", market_id := "m2", token_id := "t2",
                 side := "SELL", price := 1/4, size := 20 },
               { strategy := "c", market_id := "m3", token_id := "t3",
                 side := "BUY", price := 3/4, size := 30 }],
            om_wired := true }).bot_metadata
        RiskManager.KILL_SWITCH_DB_KEY = some "1" ∧
    (RiskManager.activate_kill_switch 7
          { flags := {}, bot_metadata := [],
            signal_queue :=
              [{ strategy := "a", market_id := "m1", token_id := "t1",
                 side := "BUY", price := 1/2, size := 10 },
               { strategy := "b", market_id := "m2", token_id := "t2",
                 side := "SELL", price := 1/4, size := 20 },
               { strategy := "c", market_id := "m3", token_id := "t3",
                 side := "BUY", price := 3/4, size := 30 }],
            om_wired := true }).signal_queue = [] :=
  C5_kill_switch_activation _ 7 {} { wallet_usdc := .ok 500, positions := [] }
    { strategy := "s", market_id := "m", token_id := "t", side := "BUY",
      price := 1/2, size := 100 } rfl

/-- C3 counterexample: with an open position worth 50 in the store, a
wallet read failure yields portfolio value 50 — not 0 — and the intent is
not rejected by check 4's portfolio-unknown reason (here it reaches check
6, max-open-positions). -/
theorem C3_counterexample :
    RiskManager.get_portfolio_value
        { wallet_usdc := .error "boom",
          positions :=
            [{ id := 1, market_id := "m", token_id := "t", strategy := "s",
               side := "BUY", entry_price := 2/5, size := 100,
               current_price := some (1/2), status := .open_ }],
          todayStart := 0 } = 50 ∧
    (50 : ℚ) ≠ 0 ∧
    (RiskManager.approve_signal { max_open_positions := 0 }
        { wallet_usdc := .error "boom",
          positions :=
            [{ id := 1, market_id := "m", token_id := "t", strategy := "s",
               side := "BUY", entry_price := 2/5, size := 100,
               current_price := some (1/2), status := .open_ }],
          todayStart := 0 }
        {} { strategy := "s2", market_id := "m2", token_id := "t2",
             side := "BUY", price := 1/2, size := 100 }).1
      = (false, "Max open positions reached: 1/0") := by
  refine ⟨by norm_num [RiskManager.get_portfolio_value,
    Database.get_open_positions], by norm_num, ?_⟩
  norm_num [RiskManager.approve_signal, RiskManager.get_portfolio_value,
    RiskManager.get_today_realized_pnl, RiskManager.get_total_unrealized_pnl,
    RiskManager.get_strategy_exposure, Database.get_open_positions,
    Database.count_open_positions, Database.get_open_positions_of]
  rfl

/-- C3 amended: when the wallet quote-balance read raises, the USDC term
is replaced by 0 and the computed portfolio value equals the summed value
of the open positions alone; check 4 rejects with the
portfolio-value-unknown reason exactly when that remaining value is ≤ 0
(e.g. with no open positions) — with valuable open positions the intent
proceeds past check 4 (a wallet failure is then caught fail-closed by the
cash-reserve check 11). -/
theorem C3_wallet_error_fail_closed (env : RiskEnv) (err : String)
    (cfg : StrategyConfig) (flags : RiskFlags) (sig : Signal)
    (hw : env.wallet_usdc = .error err) :
    RiskManager.get_portfolio_value env
      = ((Database.get_open_positions env.positions).map
          (fun p => (p.current_price.getD p.entry_price) * p.size)).sum ∧
    (flags.kill_switch_active = false → flags.trading_halted = false →
      flags.daily_loss_halt = false →
      RiskManager.get_portfolio_value env ≤ 0 →
      (RiskManager.approve_signal cfg env flags sig).1
        = (false, "Portfolio value is 0 or unknown — cannot assess risk")) := by
  constructor
  · simp [RiskManager.get_portfolio_value, hw]
  · intro h1 h2 h3 h4
    simp [RiskManager.approve_signal, h1, h2, h3, h4]

/-- C3 witness: the amended theorem at a wallet-error state with an empty
positions table, where the portfolio value is 0 and check 4 fires. -/
theorem C3_witness :
    RiskManager.get_portfolio_value
        { wallet_usdc := .error "x", positions := [], todayStart := 0 }
      = (((Database.get_open_positions
            ([] : List Position)).map
          (fun p => (p.current_price.getD p.entry_price) * p.size)).sum) ∧
    (RiskManager.approve_signal {}
        { wallet_usdc := .error "x", positions := [], todayStart := 0 } {}
        { strategy := "s", market_id := "m", token_id := "t", side := "BUY",
          price := 1/2, size := 100 }).1
      = (false, "Portfolio value is 0 or unknown — cannot assess risk") := by
  have h := C3_wallet_error_fail_closed
    { wallet_usdc := .error "x", positions := [], todayStart := 0 } "x" {} {}
    { strategy := "s", market_id := "m", token_id := "t", side := "BUY",
      price := 1/2, size := 100 } rfl
  exact ⟨h.1, h.2 rfl rfl rfl (by norm_num [RiskManager.get_portfolio_value,
    Database.get_open_positions])⟩

/-- C2: the position row opened by a successful non-exit BUY records
`size = signal.size` — the USD notional — although the position manager
(and the spec's data model) read `positions.size` as a share count
(`N / p`): at notional 100 and price 0.5 the row stores 100, not 200. -/
theorem C2_position_size_stores_notional :
    ((OrderManager.execute_signal
        { approve := (true, "Approved"), submit_ok := fun _ => true,
          order_id := "ord-1" }
        { strategy := "s", market_id := "m", token_id := "t", side := "BUY",
          price := 1/2, size := 100 }
        { rows := [], next_id := 1 } [] 1 0).2.2.2.map
      fun p => (p.entry_price, p.size)) = [(1/2, 100)] ∧
    ¬((100 : ℚ) = 100 / (1/2)) := by
  constructor
  · simp [OrderManager.execute_signal, OrderManager.record_fill,
      OrderManager.convert_usd_to_shares, Database.record_trade,
      Database.open_position]
    norm_num
  · norm_num

/-- The retry loop never performs a risk check: its trace contains no
`riskCheck` event for any environment and any starting retry count. -/
theorem exit_retry_loop_no_riskCheck (env : OrderManager.ExecEnv) :
    ∀ rc, ((OrderManager.exit_retry_loop env rc).2).count
      OrderManager.Event.riskCheck = 0 := by
  have aux : ∀ (k rc : Nat), OrderManager.MAX_EXIT_RETRIES - rc ≤ k →
      ((OrderManager.exit_retry_loop env rc).2).count
        OrderManager.Event.riskCheck = 0 := by
    intro k
    induction k with
    | zero =>
        intro rc h
        unfold OrderManager.exit_retry_loop
        rw [if_neg (by simp [OrderManager.MAX_EXIT_RETRIES] at h ⊢; omega)]
        simp
    | succ k ih =>
        intro rc h
        unfold OrderManager.exit_retry_loop
        by_cases hrc : rc < OrderManager.MAX_EXIT_RETRIES
        · rw [if_pos hrc]
          simp only [OrderManager.execute_signal_inner]
          by_cases hok : env.submit_ok (rc + 1)
          · simp [hok]
          · have := ih (rc + 1)
              (by simp [OrderManager.MAX_EXIT_RETRIES] at h hrc ⊢; omega)
            simp [hok, this]
        · rw [if_neg hrc]
          simp
  intro rc
  exact aux (OrderManager.MAX_EXIT_RETRIES - rc) rc (Nat.le_refl _)

/-- C4 counterexample: an exit signal whose submissions all fail produces
the trace below — one risk check before the initial submission and none
during the three retries, refuting "each retry re-runs both the risk
check and the submission path". -/
theorem C4_counterexample :
    (OrderManager.execute_signal
        { approve := (true, "Approved"), submit_ok := fun _ => false,
          order_id := "x" }
        { strategy := "s", market_id := "m", token_id := "t", side := "SELL",
          price := 1/2, size := 100, metadata := { is_exit := true } }
        { rows := [], next_id := 1 } [] 1 0).2.1
      = [.riskCheck, .acquire, .submit 0,
         .sleep 2, .acquire, .submit 1,
         .sleep 4, .acquire, .submit 2,
         .sleep 8, .acquire, .submit 3] ∧
    ((OrderManager.execute_signal
        { approve := (true, "Approved"), submit_ok := fun _ => false,
          order_id := "x" }
        { strategy := "s", market_id := "m", token_id := "t", side := "SELL",
          price := 1/2, size := 100, metadata := { is_exit := true } }
        { rows := [], next_id := 1 } [] 1 0).2.1).count
      OrderManager.Event.riskCheck = 1 := by
  have h : (OrderManager.execute_signal
        { approve := (true, "Approved"), submit_ok := fun _ => false,
          order_id := "x" }
        { strategy := "s", market_id := "m", token_id := "t", side := "SELL",
          price := 1/2, size := 100, metadata := { is_exit := true } }
        { rows := [], next_id := 1 } [] 1 0).2.1
      = [.riskCheck, .acquire, .submit 0,
         .sleep 2, .acquire, .submit 1,
         .sleep 4, .acquire, .submit 2,
         .sleep 8, .acquire, .submit 3] := by
    simp [OrderManager.execute_signal, OrderManager.exit_retry_loop,
      OrderManager.execute_signal_inner, OrderManager.convert_usd_to_shares,
      OrderManager.MAX_EXIT_RETRIES, OrderManager.EXIT_RETRY_BACKOFF_BASE]
    norm_num
  refine ⟨h, ?_⟩
  rw [h]
  simp [List.count_cons]

/-- C4 amended: a failed exit submission is retried iteratively at most 3
times, with a sleep of `2^n` seconds before the `n`-th retry and a fresh
rate-limit acquire and CLOB submission on each retry — but the risk check
runs only once, before the initial submission; retries re-run only the
submission path (`_execute_signal_inner`), and a failed episode leaves
the trade and position tables untouched. -/
theorem C4_exit_retries_submission_only (env : OrderManager.ExecEnv)
    (sig : Signal) (trades : TradesTable) (positions : List Position)
    (fid : Nat) (now : ℚ) (ha : env.approve.1 = true)
    (hx : sig.metadata.is_exit = true) (hr : sig.metadata.retry_count = 0)
    (hp : 0 < sig.price) (hs : 0 < sig.size)
    (hf : ∀ n, env.submit_ok n = false) :
    (OrderManager.execute_signal env sig trades positions fid now).1
      = some false ∧
    (OrderManager.execute_signal env sig trades positions fid now).2.1
      = [.riskCheck, .acquire, .submit 0,
         .sleep 2, .acquire, .submit 1,
         .sleep 4, .acquire, .submit 2,
         .sleep 8, .acquire, .submit 3] ∧
    (OrderManager.execute_signal env sig trades positions fid now).2.2.1
      = trades ∧
    (OrderManager.execute_signal env sig trades positions fid now).2.2.2
      = positions ∧
    (∀ (env' : OrderManager.ExecEnv) (rc : Nat),
      ((OrderManager.exit_retry_loop env' rc).2).count
        OrderManager.Event.riskCheck = 0) := by
  have hshares : ¬(OrderManager.convert_usd_to_shares sig.size sig.price ≤ 0) := by
    simp [OrderManager.convert_usd_to_shares, not_le.mpr hp]
    positivity
  refine ⟨?_, ?_, ?_, ?_, fun env' => exit_retry_loop_no_riskCheck env'⟩ <;>
    simp [OrderManager.execute_signal, ha, hx, hr, hf, hshares,
      OrderManager.exit_retry_loop, OrderManager.execute_signal_inner,
      OrderManager.MAX_EXIT_RETRIES, OrderManager.EXIT_RETRY_BACKOFF_BASE]
  norm_num

/-- C4 witness: the amended theorem at the counterexample's concrete
input. -/
theorem C4_witness :
    (OrderManager.execute_signal
        { approve := (true, "Approved"), submit_ok := fun _ => false,
          order_id := "x" }
        { strategy := "s", market_id := "m", token_id := "t", side := "SELL",
          price := 1/2, size := 100, metadata := { is_exit := true } }
        { rows := [], next_id := 1 } [] 1 0).1 = some false ∧
    (OrderManager.execute_signal
        { approve := (true, "Approved"), submit_ok := fun _ => false,
          order_id := "x" }
        { strategy := "s", market_id := "m", token_id := "t", side := "SELL",
          price := 1/2, size := 100, metadata := { is_exit := true } }
        { rows := [], next_id := 1 } [] 1 0).2.2.1
      = { rows := [], next_id := 1 } := by
  have h := C4_exit_retries_submission_only
    { approve := (true, "Approved"), submit_ok := fun _ => false,
      order_id := "x" }
    { strategy := "s", market_id := "m", token_id := "t", side := "SELL",
      price := 1/2, size := 100, metadata := { is_exit := true } }
    { rows := [], next_id := 1 } [] 1 0 rfl rfl rfl (by norm_num)
    (by norm_num) (fun _ => rfl)
  exact ⟨h.1, h.2.2.1⟩

/-- A single price update submits at most one exit signal for a
position, whatever branch fires. -/
theorem pm_step_signals_le_one (cfg : PositionManager.PmConfig)
    (guard : List Nat) (token_id : String) (price : ℚ) (p : Position) :
    ((PositionManager.on_price_update_step cfg guard token_id price
      p).signals).length ≤ 1 := by
  by_cases h1 : p.token_id ≠ token_id
  · simp [PositionManager.on_price_update_step, h1]
  by_cases h2 : p.id ∈ guard
  · simp [PositionManager.on_price_update_step, h1, h2]
  by_cases h3 : p.status = PosStatus.closing
  · simp [PositionManager.on_price_update_step, h1, h2, h3]
  simp only [PositionManager.on_price_update_step, h1, h2, h3,
    if_false, ite_false, if_neg]
  split
  · exact pm_close_step_signals_le_one _ _ _ _ _
  split
  · exact pm_close_step_signals_le_one _ _ _ _ _
  · exact tier_section_signals_le_one _ _ _ _ _ _

/-- A price update never decreases a position's take-profit tier
counter. -/
theorem pm_step_tp_mono (cfg : PositionManager.PmConfig)
    (guard : List Nat) (token_id : String) (price : ℚ) (p : Position) :
    p.take_profit_triggered ≤
      (PositionManager.on_price_update_step cfg guard token_id price
        p).pos.take_profit_triggered := by
  by_cases h1 : p.token_id ≠ token_id
  · simp [PositionManager.on_price_update_step, h1]
  by_cases h2 : p.id ∈ guard
  · simp [PositionManager.on_price_update_step, h1, h2]
  by_cases h3 : p.status = PosStatus.closing
  · simp [PositionManager.on_price_update_step, h1, h2, h3]
  have hup := (upd_price_row_proj p price).2
  simp only [PositionManager.on_price_update_step, h1, h2, h3,
    if_false, ite_false, if_neg]
  split
  · rw [pm_close_step_tp, hup]
  split
  · rw [pm_close_step_tp, hup]
  · show p.take_profit_triggered ≤
      (PositionManager.ratchet _ _ _ _ _).take_profit_triggered
    rw [ratchet_tp]
    calc p.take_profit_triggered
        = (PositionManager.update_position_price_row p
            price).take_profit_triggered := hup.symm
      _ ≤ _ := tier_section_tp_mono _ _ _ _ _ _

/-- C6 counterexample: in the S4 scenario (BUY at 0.40, size 100, tiers
`[(50,50),(100,100)]`, trailing 10, update at 0.60) the emitted partial
exit's reasoning is `"Partial take-profit tier 1"`, which does not
contain the substring `take_profit`. -/
theorem C6_counterexample :
    ((PositionManager.on_price_update_step
        { stop_loss_pct := 25, trailing_stop_pct := 10,
          take_profit_tiers := [(50, 50), (100, 100)] }
        [] "t" (3/5)
        { id := 1, market_id := "m", token_id := "t", strategy := "s",
          side := "BUY", entry_price := 2/5, size := 100,
          status := .open_ }).signals.map (·.reasoning))
      = ["Partial take-profit tier 1"] ∧
    strContains "take_profit" "Partial take-profit tier 1" = false := by
  have hst : ¬(PosStatus.open_ = PosStatus.closing) := by decide
  constructor
  · norm_num [PositionManager.on_price_update_step,
      PositionManager.tier_section, PositionManager.ratchet,
      PositionManager.update_position_price_row,
      PositionManager.calc_pnl_pct, PositionManager.find_tier,
      PositionManager.partial_close_step, PositionManager.truthy, hst]
    rfl
  · decide

/-- C6 amended: in the S4 scenario the price update at 0.60 produces
exactly one partial exit intent selling 50 shares at 0.60 (signal
notional 30 USD) whose reasoning is `"Partial take-profit tier 1"`
(containing `take-profit`, with a hyphen, not `take_profit`); the tier
counter becomes 1, the remaining size 50, and the trailing stop is
initialized to 0.54; in general at most one tier fires per price update
and the tier counter never decreases. -/
theorem C6_take_profit_tier_scenario (cfg : PositionManager.PmConfig)
    (n : Nat) (mid tok strat : String) (g : List Nat)
    (hsl : 0 < cfg.stop_loss_pct)
    (htp : cfg.take_profit_tiers = [(50, 50), (100, 100)])
    (htr : cfg.trailing_stop_pct = 10) (hg : n ∉ g) :
    ((PositionManager.on_price_update_step cfg g tok (3/5)
        { id := n, market_id := mid, token_id := tok, strategy := strat,
          side := "BUY", entry_price := 2/5, size := 100,
          status := .open_ }).signals.map
      fun s => (s.side, s.price, s.size, s.reasoning))
      = [("SELL", 3/5, 30, "Partial take-profit tier 1")] ∧
    (PositionManager.on_price_update_step cfg g tok (3/5)
        { id := n, market_id := mid, token_id := tok, strategy := strat,
          side := "BUY", entry_price := 2/5, size := 100,
          status := .open_ }).pos.take_profit_triggered = 1 ∧
    (PositionManager.on_price_update_step cfg g tok (3/5)
        { id := n, market_id := mid, token_id := tok, strategy := strat,
          side := "BUY", entry_price := 2/5, size := 100,
          status := .open_ }).pos.size = 50 ∧
    (PositionManager.on_price_update_step cfg g tok (3/5)
        { id := n, market_id := mid, token_id := tok, strategy := strat,
          side := "BUY", entry_price := 2/5, size := 100,
          status := .open_ }).pos.trailing_stop_price = some (27/50) ∧
    strContains "take-profit" "Partial take-profit tier 1" = true ∧
    (∀ (cfg' : PositionManager.PmConfig) (g' : List Nat) (tok' : String)
      (pr : ℚ) (p' : Position),
      ((PositionManager.on_price_update_step cfg' g' tok' pr
        p').signals).length ≤ 1) ∧
    (∀ (cfg' : PositionManager.PmConfig) (g' : List Nat) (tok' : String)
      (pr : ℚ) (p' : Position),
      p'.take_profit_triggered ≤
        (PositionManager.on_price_update_step cfg' g' tok' pr
          p').pos.take_profit_triggered) := by
  have hsl' : ¬((50 : ℚ) ≤ -cfg.stop_loss_pct) := by linarith
  have hst : ¬(PosStatus.open_ = PosStatus.closing) := by decide
  refine ⟨?_, ?_, ?_, ?_, by decide,
    fun cfg' g' tok' pr p' => pm_step_signals_le_one cfg' g' tok' pr p',
    fun cfg' g' tok' pr p' => pm_step_tp_mono cfg' g' tok' pr p'⟩ <;>
    norm_num [PositionManager.on_price_update_step,
      PositionManager.tier_section, PositionManager.ratchet,
      PositionManager.update_position_price_row,
      PositionManager.calc_pnl_pct, PositionManager.find_tier,
      PositionManager.partial_close_step, PositionManager.truthy,
      htp, htr, hsl', hst, hg]
  rfl

/-- C6 witness: the amended theorem at the concrete S4 configuration. -/
theorem C6_witness :
    ((PositionManager.on_price_update_step
        { stop_loss_pct := 25, trailing_stop_pct := 10,
          take_profit_tiers := [(50, 50), (100, 100)] }
        [] "t" (3/5)
        { id := 1, market_id := "m", token_id := "t", strategy := "s",
          side := "BUY", entry_price := 2/5, size := 100,
          status := .open_ }).signals.map
      fun s => (s.side, s.price, s.size, s.reasoning))
      = [("SELL", 3/5, 30, "Partial take-profit tier 1")] ∧
    (PositionManager.on_price_update_step
        { stop_loss_pct := 25, trailing_stop_pct := 10,
          take_profit_tiers := [(50, 50), (100, 100)] }
        [] "t" (3/5)
        { id := 1, market_id := "m", token_id := "t", strategy := "s",
          side := "BUY", entry_price := 2/5, size := 100,
          status := .open_ }).pos.trailing_stop_price = some (27/50) := by
  have h := C6_take_profit_tier_scenario
    { stop_loss_pct := 25, trailing_stop_pct := 10,
      take_profit_tiers := [(50, 50), (100, 100)] }
    1 "m" "t" "s" [] (by norm_num) rfl rfl (by simp)
  exact ⟨h.1, h.2.2.2.1⟩

/-- C7 counterexample: a fully exited whale entry with a live price and a
matching OPEN mirror position nevertheless yields *no* SELL intent when
the engine position's notional (0.5 × 10 = 5 USD) is below the `$10`
minimum-exit floor — the claim as stated omits the floor condition. -/
theorem C7_counterexample :
    CopyTrader.detect_whale_exits "0xW" "GTC" [(("m", "t"), { size := 5 })]
        (fun _ => none)
        [{ id := 1, market_id := "m", token_id := "t",
           strategy := "copy_trader", side := "BUY", entry_price := 1/2,
           size := 10, status := .open_,
           metadata := { source_wallet := some "0xW" } }]
        (fun _ => some (3/5)) = [] ∧
    ((1 : ℚ)/2) * 10 < 10 := by
  constructor
  · norm_num [CopyTrader.detect_whale_exits, Database.get_open_positions_of,
      Database.get_open_positions, CopyTrader.MIN_EXIT_SIZE_USD]
  · norm_num

/-- C7 amended: for a tracked account's previously mirrored entry that is
absent from the current snapshot (100% reduction), with a live exit price
and a matching OPEN `copy_trader` position whose notional
`entry_price × size` is at least the `$10` floor, one poll cycle emits
exactly one SELL intent for that position, with notional
`round(entry_price × size × 100%, 2)`. -/
theorem C7_whale_full_exit_sell (addr ot mid tok : String)
    (whale : CopyTrader.WhaleData) (pos : Position) (pr : ℚ)
    (hstrat : pos.strategy = "copy_trader") (hstat : pos.status = .open_)
    (hsw : pos.metadata.source_wallet = some addr) (htok : pos.token_id = tok)
    (hfloor : 10 ≤ pos.entry_price * pos.size) :
    (CopyTrader.detect_whale_exits addr ot [((mid, tok), whale)]
        (fun _ => none) [pos] (fun _ => some pr)).map
      (fun s => (s.side, s.price, s.size, s.token_id, s.market_id))
      = [("SELL", pr, pyRound (pos.entry_price * pos.size) 2, tok, mid)] := by
  have hE : pos.entry_price * pos.size * ((100 : ℚ)/100)
      = pos.entry_price * pos.size := by norm_num
  have hlt : ¬(pos.entry_price * pos.size * ((100 : ℚ)/100) < 10) := by
    rw [hE]; exact not_lt.mpr hfloor
  have hlt2 : ¬(pos.entry_price * pos.size < 10) := not_lt.mpr hfloor
  simp [CopyTrader.detect_whale_exits, Database.get_open_positions_of,
    Database.get_open_positions, CopyTrader.MIN_EXIT_SIZE_USD,
    List.filterMap_cons, hstrat, hstat, hsw, htok, hE, hlt, hlt2]

/-- C7 witness: the amended theorem at a concrete mirrored position of
notional 20 USD. -/
theorem C7_witness :
    (CopyTrader.detect_whale_exits "0xW" "GTC" [(("m", "t"), { size := 50 })]
        (fun _ => none)
        [{ id := 4, market_id := "m", token_id := "t",
           strategy := "copy_trader", side := "BUY", entry_price := 1/2,
           size := 40, status := .open_,
           metadata := { source_wallet := some "0xW" } }]
        (fun _ => some (3/5))).map
      (fun s => (s.side, s.price, s.size, s.token_id, s.market_id))
      = [("SELL", 3/5, pyRound ((1/2) * 40) 2, "t", "m")] := by
  have h := C7_whale_full_exit_sell "0xW" "GTC" "m" "t" { size := 50 }
    { id := 4, market_id := "m", token_id := "t",
      strategy := "copy_trader", side := "BUY", entry_price := 1/2,
      size := 40, status := .open_,
      metadata := { source_wallet := some "0xW" } }
    (3/5) rfl rfl rfl rfl (by norm_num)
  exact h

end Polymarket
